import Mathlib

/-!
Verification of the hera wasm smart-contract execution engine
(src/wasmc.cpp and src/wasmer.cpp) against its natural-language
specification.  The engine loads a wasm contract, validates its
import/export ABI, runs `deploy`/`main`, and classifies the resulting
trap message.  Definitions below are shallow embeddings of the two
source files; strings are modelled as lists of characters and machine
integers as `Int`/`Nat`.
-/

deriving instance DecidableEq for Except

namespace Hera

/-- Byte strings / trap messages, as lists of characters. -/
abbrev Str := List Char

/-- `isPrefixOfChars pat s` holds when `pat` is a leading segment of `s`.
This models `strncmp(pat, s, strlen(pat)) == 0` as the source uses it on
NUL-terminated export/import names. -/
def isPrefixOfChars : Str → Str → Bool
  | [], _ => true
  | _ :: _, [] => false
  | p :: ps, c :: cs => p == c && isPrefixOfChars ps cs

/-- `containsSub hay pat` models `std::string::find(pat) != npos`:
`pat` occurs contiguously somewhere in `hay`. -/
def containsSub : Str → Str → Bool
  | [], pat => pat.isEmpty
  | hay@(_ :: rest), pat => isPrefixOfChars pat hay || containsSub rest pat

/-- Trap-message constants of wasmc.cpp lines 46-51 (shared by wasmer.cpp). -/
def strOutOfGas : Str := "Out of gas.".data

def strRevert : Str := "revert".data

def strFinish : Str := "finish".data

def strMemAccess : Str := "memory access".data

def strUnreachableMsg : Str := "unreachable".data

def strStackExhausted : Str := "stack exhausted".data

def strNegGas : Str := "Negative gas supplied.".data

/-- `ExecutionResult` (spec §3): the mutable record produced by one invocation. -/
structure ExecutionResult where
  gasLeft : Int
  isRevert : Bool
  returnValue : List Nat
  deriving DecidableEq, Repr

/-- The typed exceptions `execute` can throw (spec §7). -/
inductive HeraException where
  | outOfGas
  | unreachableTrap
  | invalidMemoryAccess
  | contractValidationFailure
  | unknownError
  deriving DecidableEq, Repr

/-- Trap classification of `WasmcEngine::execute`, wasmc.cpp lines 1615-1656:
`result.isRevert = true` first, then the `find` chain in source order
"Out of gas.", "unreachable", "stack exhausted", "revert",
"memory access", "finish", else "Unknown error.". -/
def classifyTrap (msg : Str) (res : ExecutionResult) : Except HeraException ExecutionResult :=
  let r := { res with isRevert := true }
  if containsSub msg strOutOfGas then .error .outOfGas
  else if containsSub msg strUnreachableMsg then .error .unreachableTrap
  else if containsSub msg strStackExhausted then .error .unreachableTrap
  else if containsSub msg strRevert then .ok r
  else if containsSub msg strMemAccess then .error .invalidMemoryAccess
  else if containsSub msg strFinish then .ok { r with isRevert := false }
  else .error .unknownError

/-- Trap classification of `WasmerEngine::execute`, wasmer.cpp lines 698-721:
only "Out of gas.", "unreachable" and "revert" are recognised; every other
failing message throws "Unknown error.". -/
def classifyTrapWr (msg : Str) (res : ExecutionResult) : Except HeraException ExecutionResult :=
  let r := { res with isRevert := true }
  if containsSub msg strOutOfGas then .error .outOfGas
  else if containsSub msg strUnreachableMsg then .error .unreachableTrap
  else if containsSub msg strRevert then .ok r
  else .error .unknownError

/-- The classifier exactly as claim C1 states it: same substring matching but
with "finish" tested BEFORE "memory access". Written from the claim's words,
to be compared with `classifyTrap` taken from the source. -/
def classifyTrapClaimC1 (msg : Str) (res : ExecutionResult) : Except HeraException ExecutionResult :=
  let r := { res with isRevert := true }
  if containsSub msg strOutOfGas then .error .outOfGas
  else if containsSub msg strUnreachableMsg then .error .unreachableTrap
  else if containsSub msg strStackExhausted then .error .unreachableTrap
  else if containsSub msg strRevert then .ok r
  else if containsSub msg strFinish then .ok { r with isRevert := false }
  else if containsSub msg strMemAccess then .error .invalidMemoryAccess
  else .error .unknownError

/-- `beiUseGas` of wasmc.cpp lines 265-288.  `EthereumInterface::eeiUseGas`
and `eeiGetGasLeft` live in the EthereumInterface base class which is not
under src/; they are modelled from the spec: "subtract g from gasLeft"
(spec §4.1) and `gesLeft()` in wasmc.cpp line 134 shows `gasLeft` is
`m_result.gasLeft`.  Returns the new `gasLeft` and the trap message, if any. -/
def beiUseGasW (gasLeft gas : Int) : Int × Option Str :=
  if gas < 0 then (gasLeft, some strNegGas)
  else
    let gl := gasLeft - gas
    if gl < 0 then (gl, some strOutOfGas) else (gl, none)

/-- `beiUseGas` of wasmer.cpp lines 184-190 composed with
`WasmerEthereumInterface::takeGas`, wasmer.cpp lines 52-56: the out-of-gas
check `gas <= m_result.gasLeft` runs BEFORE the subtraction, and the trap
leaves `gasLeft` unchanged. -/
def beiUseGasWr (gasLeft gas : Int) : Int × Option Str :=
  if gas < 0 then (gasLeft, some strNegGas)
  else if gas ≤ gasLeft then (gasLeft - gas, none)
  else (gasLeft, some strOutOfGas)

/-- `WasmcInterface::beiRevertOrFinish`, wasmc.cpp lines 138-162.
`ensureSourceMemoryBounds` and `loadMemory` belong to the EthereumInterface
base class, not under src/; modelled from the spec §4.1: the pair is checked
against the linear-memory byte size (violation: InvalidMemoryAccess) and the
bytes `[offset, offset+size)` are copied.  Returns the updated result and
the trap message raised to unwind. -/
def beiRevertOrFinishW (mem : List Nat) (rf : Bool) (offset size : Nat)
    (res : ExecutionResult) : Except HeraException (ExecutionResult × Str) :=
  if size ≠ 0 then
    if offset + size ≤ mem.length then
      .ok ({ res with returnValue := (mem.drop offset).take size, isRevert := rf },
           if rf then strRevert else strFinish)
    else .error .invalidMemoryAccess
  else .ok ({ res with isRevert := rf }, if rf then strRevert else strFinish)

/-- `memoryGet` of wasmc.cpp lines 174-181 (identical in wasmer.cpp lines
88-95): the guard is `memorySize() >= offset` and then `data[offset]` is
read.  Reading one past the end is undefined in C; the junk byte is
modelled as 0 via `getD`. -/
def memoryGetW (mem : List Nat) (offset : Nat) : Except HeraException Nat :=
  if mem.length ≥ offset then .ok (mem.getD offset 0)
  else .error .invalidMemoryAccess

/-- `memoryPointer` of wasmc.cpp lines 182-188 (identical in wasmer.cpp
lines 96-102): guard `memorySize() >= offset + length`. -/
def memoryPointerW (mem : List Nat) (offset length : Nat) : Except HeraException (List Nat) :=
  if mem.length ≥ offset + length then .ok ((mem.drop offset).take length)
  else .error .invalidMemoryAccess

/-- Kinds of wasm externs, `wasm_externkind_enum`. -/
inductive ExtKind where
  | func
  | global
  | mem
  | table
  deriving DecidableEq, Repr

/-- One export declaration of a module: name and kind. -/
structure ExportEntry where
  name : Str
  kind : ExtKind
  deriving DecidableEq, Repr

/-- One import declaration of a module: module namespace, name and kind. -/
structure ImportEntry where
  moduleName : Str
  name : Str
  kind : ExtKind
  deriving DecidableEq, Repr

/-- Validation errors carry the `ContractValidationFailure` message. -/
inductive VError where
  | validation : Str → VError
  deriving DecidableEq, Repr

def nMemory : Str := "memory".data

def nDeploy : Str := "deploy".data

def nMain : Str := "main".data

def nHashType : Str := "hash_type".data

def nDataEnd : Str := "__data_end".data

def nHeapBase : Str := "__heap_base".data

def nBcos : Str := "bcos".data

def nEthereum : Str := "ethereum".data

def nDebug : Str := "debug".data

def msgInvalidExport : Str := "Invalid export is present.".data

def msgMemoryKind : Str := "\"memory\" is not pointing to memory.".data

def msgMainKind : Str := "\"main\" is not pointing to function.".data

def msgGlobalKind : Str := "__data_end/__heap_base is not pointing to global.".data

def msgNotAllExported : Str := "BCI(deploy/main/hash_type/memory) are not all exported.".data

def msgNotAllExportedWr : Str := "BCI(deploy/main/hash_type) are not all exported.".data

def msgInvalidNamespace : Str := "Import from invalid namespace.".data

def msgImportKind : Str := "Imported function type mismatch.".data

/-- wasmc.cpp line 1189: the name of the offending import is appended. -/
def msgImportInvalidEEI (name : Str) : Str := "Importing invalid EEI method ".data ++ name

/-- wasmer.cpp line 598: fixed message, the name is NOT appended. -/
def msgImportInvalidEEIWr : Str := "Importing invalid EEI method.".data

/-- One iteration of the export loop of `WasmcEngine::verifyContract`,
wasmc.cpp lines 1101-1150.  Name matching is `strncmp(pat, name,
strlen(pat))`, i.e. PREFIX matching.  On success returns the amount added
to the `BCIExportes` counter. -/
def wasmcExportStep (e : ExportEntry) : Except VError Nat :=
  if isPrefixOfChars nMemory e.name then
    if e.kind == .mem then .ok 1 else .error (.validation msgMemoryKind)
  else if isPrefixOfChars nDeploy e.name || isPrefixOfChars nMain e.name ||
      isPrefixOfChars nHashType e.name then
    if e.kind == .func then .ok 1 else .error (.validation msgMainKind)
  else if isPrefixOfChars nDataEnd e.name || isPrefixOfChars nHeapBase e.name then
    if e.kind == .global then .ok 0 else .error (.validation msgGlobalKind)
  else .error (.validation msgInvalidExport)

/-- The export loop with the running `BCIExportes` counter; after the loop,
wasmc.cpp lines 1151-1158 require the counter to be exactly 4. -/
def wasmcVerifyExportsGo : List ExportEntry → Nat → Except VError Unit
  | [], n => if n = 4 then .ok () else .error (.validation msgNotAllExported)
  | e :: rest, n =>
    match wasmcExportStep e with
    | .ok w => wasmcVerifyExportsGo rest (n + w)
    | .error err => .error err

/-- Export validation of `WasmcEngine::verifyContract`, wasmc.cpp 1100-1158. -/
def wasmcVerifyExports (l : List ExportEntry) : Except VError Unit :=
  wasmcVerifyExportsGo l 0

/-- An export that the wasmc validator lets through (prefix matching). -/
def wasmcExportOk (e : ExportEntry) : Bool :=
  if isPrefixOfChars nMemory e.name then e.kind == .mem
  else if isPrefixOfChars nDeploy e.name || isPrefixOfChars nMain e.name ||
      isPrefixOfChars nHashType e.name then e.kind == .func
  else if isPrefixOfChars nDataEnd e.name || isPrefixOfChars nHeapBase e.name then
    e.kind == .global
  else false

/-- The contribution of one export to the wasmc `BCIExportes` counter. -/
def wasmcBciWeight (e : ExportEntry) : Nat :=
  if isPrefixOfChars nMemory e.name then 1
  else if isPrefixOfChars nDeploy e.name || isPrefixOfChars nMain e.name ||
      isPrefixOfChars nHashType e.name then 1
  else 0

def wasmcBciCount (l : List ExportEntry) : Nat := (l.map wasmcBciWeight).sum

/-- One iteration of the export loop of `WasmerEngine::verifyContract`,
wasmer.cpp lines 545-574: names are compared EXACTLY; only
deploy/main/hash_type shift the `isBCIExported` accumulator (memory does
not).  On success returns the number of shifts contributed. -/
def wasmerExportStep (e : ExportEntry) : Except VError Nat :=
  if e.name == nMemory then
    if e.kind == .mem then .ok 0 else .error (.validation msgMemoryKind)
  else if e.name == nDeploy || e.name == nMain || e.name == nHashType then
    if e.kind == .func then .ok 1 else .error (.validation msgMainKind)
  else if e.name == nDataEnd || e.name == nHeapBase then
    if e.kind == .global then .ok 0 else .error (.validation msgGlobalKind)
  else .error (.validation msgInvalidExport)

/-- wasmer export loop with shift counter; wasmer.cpp lines 575-578 require
`isBCIExported == 1 << 3`, i.e. exactly 3 shifts. -/
def wasmerVerifyExportsGo : List ExportEntry → Nat → Except VError Unit
  | [], k => if k = 3 then .ok () else .error (.validation msgNotAllExportedWr)
  | e :: rest, k =>
    match wasmerExportStep e with
    | .ok w => wasmerVerifyExportsGo rest (k + w)
    | .error err => .error err

/-- Export validation of `WasmerEngine::verifyContract`, wasmer.cpp 541-579. -/
def wasmerVerifyExports (l : List ExportEntry) : Except VError Unit :=
  wasmerVerifyExportsGo l 0

/-- An export that the wasmer validator lets through (exact matching). -/
def wasmerExportOk (e : ExportEntry) : Bool :=
  if e.name == nMemory then e.kind == .mem
  else if e.name == nDeploy || e.name == nMain || e.name == nHashType then e.kind == .func
  else if e.name == nDataEnd || e.name == nHeapBase then e.kind == .global
  else false

/-- The contribution of one export to the wasmer shift counter. -/
def wasmerBciWeight (e : ExportEntry) : Nat :=
  if e.name == nMemory then 0
  else if e.name == nDeploy || e.name == nMain || e.name == nHashType then 1
  else 0

def wasmerBciCount (l : List ExportEntry) : Nat := (l.map wasmerBciWeight).sum

/-- `eeiFunctions` of wasmc.cpp lines 1073-1079 (wasmer.cpp 523-529 is
identical). -/
def eeiFunctionsC : List Str :=
  ["useGas".data, "getGasLeft".data, "getAddress".data, "getExternalBalance".data,
   "getBlockHash".data, "getCallDataSize".data, "callDataCopy".data, "getCaller".data,
   "getCallValue".data, "codeCopy".data, "getCodeSize".data, "externalCodeCopy".data,
   "getExternalCodeSize".data, "getBlockCoinbase".data, "getBlockDifficulty".data,
   "getBlockGasLimit".data, "getTxGasPrice".data, "log".data, "getBlockNumber".data,
   "getBlockTimestamp".data, "getTxOrigin".data, "storageStore".data, "storageLoad".data,
   "finish".data, "revert".data, "getReturnDataSize".data, "returnDataCopy".data,
   "call".data, "callCode".data, "callDelegate".data, "callStatic".data,
   "create".data, "selfDestruct".data]

/-- `beiFunctions` of wasmc.cpp lines 1080-1083. -/
def beiFunctionsC : List Str :=
  ["useGas".data, "finish".data, "getAddress".data, "getCallDataSize".data,
   "getCallData".data, "setStorage".data, "getStorage".data, "getCaller".data,
   "revert".data, "getTxOrigin".data, "getExternalCodeSize".data, "log".data,
   "getReturnDataSize".data, "getReturnData".data, "call".data, "registerAsset".data,
   "issueFungibleAsset".data, "issueNotFungibleAsset".data, "transferAsset".data,
   "getAssetBalance".data, "getNotFungibleAssetIDs".data, "getNotFungibleAssetInfo".data]

/-- `beiFunctions` of wasmer.cpp lines 530-531 (a much smaller set). -/
def beiFunctionsWr : List Str :=
  ["finish".data, "getCallDataSize".data, "getCallData".data, "setStorage".data,
   "getStorage".data, "getCaller".data, "revert".data, "getTxOrigin".data,
   "log".data, "getReturnDataSize".data, "getReturnData".data]

/-- One iteration of the import loop of `WasmcEngine::verifyContract`,
wasmc.cpp lines 1164-1199.  `debugBuild` reflects the HERA_DEBUGGING
compile flag.  Namespace matching is `strncmp` PREFIX matching; the
imported name is matched exactly against the two sets; the kind check runs
last. -/
def wasmcImportStep (debugBuild : Bool) (i : ImportEntry) : Except VError Unit :=
  if debugBuild && isPrefixOfChars nDebug i.moduleName then .ok ()
  else if !(isPrefixOfChars nBcos i.moduleName || isPrefixOfChars nEthereum i.moduleName) then
    .error (.validation msgInvalidNamespace)
  else if !(beiFunctionsC.contains i.name || eeiFunctionsC.contains i.name) then
    .error (.validation (msgImportInvalidEEI i.name))
  else if i.kind == .func then .ok ()
  else .error (.validation msgImportKind)

/-- Import validation of `WasmcEngine::verifyContract`, wasmc.cpp 1161-1200. -/
def wasmcVerifyImports (debugBuild : Bool) : List ImportEntry → Except VError Unit
  | [] => .ok ()
  | i :: rest =>
    match wasmcImportStep debugBuild i with
    | .ok _ => wasmcVerifyImports debugBuild rest
    | .error err => .error err

/-- An import that the wasmc validator lets through. -/
def wasmcImportOk (debugBuild : Bool) (i : ImportEntry) : Bool :=
  (debugBuild && isPrefixOfChars nDebug i.moduleName) ||
  ((isPrefixOfChars nBcos i.moduleName || isPrefixOfChars nEthereum i.moduleName) &&
   (beiFunctionsC.contains i.name || eeiFunctionsC.contains i.name) &&
   i.kind == .func)

/-- One iteration of the import loop of `WasmerEngine::verifyContract`,
wasmer.cpp lines 584-602: namespaces compared exactly; the
invalid-EEI-method message does not name the import. -/
def wasmerImportStep (debugBuild : Bool) (i : ImportEntry) : Except VError Unit :=
  if debugBuild && i.moduleName == nDebug then .ok ()
  else if !(i.moduleName == nBcos || i.moduleName == nEthereum) then
    .error (.validation msgInvalidNamespace)
  else if !(beiFunctionsWr.contains i.name || eeiFunctionsC.contains i.name) then
    .error (.validation msgImportInvalidEEIWr)
  else if i.kind == .func then .ok ()
  else .error (.validation msgImportKind)

/-- Import validation of `WasmerEngine::verifyContract`, wasmer.cpp 580-603. -/
def wasmerVerifyImports (debugBuild : Bool) : List ImportEntry → Except VError Unit
  | [] => .ok ()
  | i :: rest =>
    match wasmerImportStep debugBuild i with
    | .ok _ => wasmerVerifyImports debugBuild rest
    | .error err => .error err

/-- `evmc_message::kind`: CALL or CREATE. -/
inductive CallKind where
  | call
  | create
  deriving DecidableEq, Repr

/-- wasmc.cpp lines 1606-1609: after the guest call and before trap
processing, `if (msg.kind == EVMC_CREATE && !result.isRevert)
result.returnValue = code;`. -/
def wasmcCreateFixup (kind : CallKind) (code : List Nat) (res : ExecutionResult) :
    ExecutionResult :=
  if kind == CallKind.create && !res.isRevert then { res with returnValue := code } else res

/-- wasmer.cpp lines 689-692: `if (msg.kind == EVMC_CREATE)
result.returnValue = code;` — unconditional, even when the guest reverted. -/
def wasmerCreateFixup (kind : CallKind) (code : List Nat) (res : ExecutionResult) :
    ExecutionResult :=
  if kind == CallKind.create then { res with returnValue := code } else res

/-- The observable outcome of the `wasm_func_call` on `deploy`/`main`:
either a normal return or a trap with a message; in both cases the
`ExecutionResult` carries the mutations the guest made through the host
interface (finish/revert payloads, gas). -/
inductive GuestOutcome where
  | ret : ExecutionResult → GuestOutcome
  | trap : Str → ExecutionResult → GuestOutcome
  deriving DecidableEq, Repr

/-- The pooled `WasmInstance`, reduced to the `idle` flag relevant here
(wasmc.cpp line 104). -/
structure WasmInstanceSt where
  idle : Bool
  deriving DecidableEq, Repr

/-- `getInstanceFromContainer`, wasmc.cpp lines 1492-1512: scan the pool
for an idle instance and claim it (`idle.exchange(false)`); if none, create
a fresh one with `idle = false` and append it.  Returns the claimed
instance and the updated pool. -/
def claimInstance : List WasmInstanceSt → WasmInstanceSt × List WasmInstanceSt
  | [] => ({ idle := false }, [{ idle := false }])
  | i :: rest =>
    if i.idle then ({ i with idle := false }, { i with idle := false } :: rest)
    else
      ((claimInstance rest).1, i :: (claimInstance rest).2)

/-- The body of `WasmcEngine::execute` after an instance is claimed,
wasmc.cpp lines 1544-1656.  On CREATE the `hash_type` handshake runs first
(a trap or a mismatch is a ContractValidationFailure, lines 1546-1573,
collapsed into `hashTypeOk`); then `deploy`/`main` runs, the CREATE
return-value fixup is applied (1606-1609), and any trap is classified
(1615-1656). -/
def wasmcExecuteClaimedBody (kind : CallKind) (code : List Nat) (hashTypeOk : Bool)
    (outcome : GuestOutcome) : Except HeraException ExecutionResult :=
  if kind == CallKind.create && !hashTypeOk then .error .contractValidationFailure
  else
    match outcome with
    | .ret res => .ok (wasmcCreateFixup kind code res)
    | .trap msg res => classifyTrap msg (wasmcCreateFixup kind code res)

/-- The claimed portion of `execute` together with the `InstanceHolder`
scope (wasmc.cpp lines 106-110, 1534): the holder's destructor runs at
scope exit on EVERY path — normal return and stack unwinding alike, which
is what C++ guarantees for the automatic object — and stores `idle = true`. -/
def wasmcExecuteClaimed (inst : WasmInstanceSt) (kind : CallKind) (code : List Nat)
    (hashTypeOk : Bool) (outcome : GuestOutcome) :
    WasmInstanceSt × Except HeraException ExecutionResult :=
  ({ inst with idle := true }, wasmcExecuteClaimedBody kind code hashTypeOk outcome)

/-- Modelled from the spec (§6 "Storage value ceiling"):
`EthereumInterface::beiGetStorage` is not under src/; per the spec it
bounds the copy-out at the supplied value length, i.e. it copies
`min(storedValueSize, valueLength)` bytes and that is the length handed
back to the guest. -/
def hostGetStorageCopyLen (storedValueSize valueLength : Nat) : Nat :=
  min storedValueSize valueLength

/-- The `maxLength` constant of the `getStorage` trampolines, wasmc.cpp
line 480 and wasmer.cpp line 317. -/
def maxStorageValueLength : Nat := 19264

/-- The `getStorage` trampoline, wasmc.cpp lines 476-488 (wasmer.cpp
313-319 is the same shape): the wasm signature has no value-length
parameter at all (the commented-out 4th argument) and the host interface
is invoked with the constant `maxLength`. -/
def getStorageTrampolineLen (storedValueSize : Nat) : Nat :=
  hostGetStorageCopyLen storedValueSize maxStorageValueLength

/-- Narrowing a host `uint32` value into a wasm `i32` slot, as the
trampolines do with `(int32_t)` casts: two's-complement reinterpretation. -/
def i32OfNat (n : Nat) : Int :=
  if n % 4294967296 < 2147483648 then ((n % 4294967296 : Nat) : Int)
  else ((n % 4294967296 : Nat) : Int) - 4294967296

/-- Reading a wasm `i32` argument as `uint32`, as the trampolines do with
`(uint32_t)args->data[k].of.i32`. -/
def natOfI32 (i : Int) : Nat := (i % 4294967296).toNat

/-- `beiGetCallData`, wasmc.cpp lines 489-495 (wasmer.cpp 320-324): one
`i32` argument `resultOffset`; the body is
`eeiCallDataCopy(resultOffset, 0, eeiGetCallDataSize())`.  The two
EthereumInterface methods are not under src/ and are abstracted: `cdc` is
`eeiCallDataCopy` and `callDataSize` the `uint32` value of
`eeiGetCallDataSize()`. -/
def beiGetCallDataW {α : Type} (cdc : Nat → Nat → Nat → α) (callDataSize : Nat)
    (resultOffset : Int) : α :=
  cdc (natOfI32 resultOffset) 0 callDataSize

/-- The `getCallDataSize` trampoline, wasmc.cpp lines 322-328: the size is
returned to the guest as an `i32`. -/
def getCallDataSizeW (callDataSize : Nat) : Int := i32OfNat callDataSize

/-- The `callDataCopy` trampoline, wasmc.cpp lines 329-338: all three
`i32` arguments are read back as `uint32`. -/
def callDataCopyW {α : Type} (cdc : Nat → Nat → Nat → α)
    (resultOffset dataOffset lengthArg : Int) : α :=
  cdc (natOfI32 resultOffset) (natOfI32 dataOffset) (natOfI32 lengthArg)

/-- The composite the claim compares against:
`callDataCopy(resultOffset, 0, getCallDataSize())` performed as the guest
would, marshalling each value through wasm `i32`s. -/
def getCallDataViaEEI {α : Type} (cdc : Nat → Nat → Nat → α) (callDataSize : Nat)
    (resultOffset : Int) : α :=
  callDataCopyW cdc resultOffset 0 (getCallDataSizeW callDataSize)

/-- `beiReturnDataCopy` (bound as bcos::getReturnData), wasmc.cpp lines
537-544: body `eeiReturnDataCopy(dataOffset, 0, eeiGetReturnDataSize())`,
with `rdc` abstracting `eeiReturnDataCopy` and `returnDataSize` the
`uint32` value of `eeiGetReturnDataSize()`. -/
def beiGetReturnDataW {α : Type} (rdc : Nat → Nat → Nat → α) (returnDataSize : Nat)
    (dataOffset : Int) : α :=
  rdc (natOfI32 dataOffset) 0 returnDataSize

/-- The `getReturnDataSize` trampoline, wasmc.cpp lines 520-526. -/
def getReturnDataSizeW (returnDataSize : Nat) : Int := i32OfNat returnDataSize

/-- The `returnDataCopy` trampoline, wasmc.cpp lines 527-536. -/
def returnDataCopyW {α : Type} (rdc : Nat → Nat → Nat → α)
    (dataOffset offset lengthArg : Int) : α :=
  rdc (natOfI32 dataOffset) (natOfI32 offset) (natOfI32 lengthArg)

/-- The composite `returnDataCopy(dataOffset, 0, getReturnDataSize())`
performed through wasm `i32` marshalling. -/
def getReturnDataViaEEI {α : Type} (rdc : Nat → Nat → Nat → α) (returnDataSize : Nat)
    (dataOffset : Int) : α :=
  returnDataCopyW rdc dataOffset 0 (getReturnDataSizeW returnDataSize)

/-! Helper lemmas. -/

theorem wasmcExportStep_eq_ok (e : ExportEntry) (w : Nat) :
    wasmcExportStep e = .ok w ↔ (wasmcExportOk e = true ∧ w = wasmcBciWeight e) := by
  unfold wasmcExportStep wasmcExportOk wasmcBciWeight
  by_cases h1 : isPrefixOfChars nMemory e.name
  · by_cases hk : e.kind == ExtKind.mem <;> simp [h1, hk, eq_comm]
  · by_cases h2 : (isPrefixOfChars nDeploy e.name || isPrefixOfChars nMain e.name ||
        isPrefixOfChars nHashType e.name)
    · by_cases hk : e.kind == ExtKind.func <;> simp [h1, h2, hk, eq_comm]
    · by_cases h3 : (isPrefixOfChars nDataEnd e.name || isPrefixOfChars nHeapBase e.name)
      · by_cases hk : e.kind == ExtKind.global <;> simp [h1, h2, h3, hk, eq_comm]
      · simp [h1, h2, h3]

theorem wasmcVerifyExportsGo_cons_ok (e : ExportEntry) (rest : List ExportEntry)
    (n w : Nat) (h : wasmcExportStep e = .ok w) :
    wasmcVerifyExportsGo (e :: rest) n = wasmcVerifyExportsGo rest (n + w) := by
  simp [wasmcVerifyExportsGo, h]

theorem wasmcVerifyExportsGo_cons_error (e : ExportEntry) (rest : List ExportEntry)
    (n : Nat) (err : VError) (h : wasmcExportStep e = .error err) :
    wasmcVerifyExportsGo (e :: rest) n = .error err := by
  simp [wasmcVerifyExportsGo, h]

theorem wasmcVerifyExportsGo_ok (l : List ExportEntry) : ∀ n : Nat,
    wasmcVerifyExportsGo l n = .ok () ↔
      ((∀ e ∈ l, wasmcExportOk e = true) ∧ n + wasmcBciCount l = 4) := by
  induction l with
  | nil =>
    intro n
    by_cases h : n = 4 <;> simp [wasmcVerifyExportsGo, wasmcBciCount, h]
  | cons e rest ih =>
    intro n
    cases hstep : wasmcExportStep e with
    | ok w =>
      obtain ⟨hok, hwv⟩ := (wasmcExportStep_eq_ok e w).mp hstep
      subst hwv
      rw [wasmcVerifyExportsGo_cons_ok e rest n _ hstep, ih]
      simp only [List.mem_cons, wasmcBciCount, List.map_cons, List.sum_cons]
      constructor
      · rintro ⟨h1, h2⟩
        refine ⟨?_, by omega⟩
        intro x hx
        rcases hx with rfl | hx
        · exact hok
        · exact h1 x hx
      · rintro ⟨h1, h2⟩
        exact ⟨fun x hx => h1 x (Or.inr hx), by omega⟩
    | error err =>
      rw [wasmcVerifyExportsGo_cons_error e rest n err hstep]
      constructor
      · intro h
        exact absurd h (by simp)
      · rintro ⟨h1, _⟩
        have hok := h1 e (List.mem_cons_self e rest)
        have hstep2 := (wasmcExportStep_eq_ok e (wasmcBciWeight e)).mpr ⟨hok, rfl⟩
        rw [hstep] at hstep2
        exact absurd hstep2 (by simp)

theorem wasmerExportStep_eq_ok (e : ExportEntry) (w : Nat) :
    wasmerExportStep e = .ok w ↔ (wasmerExportOk e = true ∧ w = wasmerBciWeight e) := by
  unfold wasmerExportStep wasmerExportOk wasmerBciWeight
  by_cases h1 : e.name == nMemory
  · by_cases hk : e.kind == ExtKind.mem <;> simp [h1, hk, eq_comm]
  · by_cases h2 : (e.name == nDeploy || e.name == nMain || e.name == nHashType)
    · by_cases hk : e.kind == ExtKind.func <;> simp [h1, h2, hk, eq_comm]
    · by_cases h3 : (e.name == nDataEnd || e.name == nHeapBase)
      · by_cases hk : e.kind == ExtKind.global <;> simp [h1, h2, h3, hk, eq_comm]
      · simp [h1, h2, h3]

theorem wasmerVerifyExportsGo_cons_ok (e : ExportEntry) (rest : List ExportEntry)
    (k w : Nat) (h : wasmerExportStep e = .ok w) :
    wasmerVerifyExportsGo (e :: rest) k = wasmerVerifyExportsGo rest (k + w) := by
  simp [wasmerVerifyExportsGo, h]

theorem wasmerVerifyExportsGo_cons_error (e : ExportEntry) (rest : List ExportEntry)
    (k : Nat) (err : VError) (h : wasmerExportStep e = .error err) :
    wasmerVerifyExportsGo (e :: rest) k = .error err := by
  simp [wasmerVerifyExportsGo, h]

theorem wasmerVerifyExportsGo_ok (l : List ExportEntry) : ∀ k : Nat,
    wasmerVerifyExportsGo l k = .ok () ↔
      ((∀ e ∈ l, wasmerExportOk e = true) ∧ k + wasmerBciCount l = 3) := by
  induction l with
  | nil =>
    intro k
    by_cases h : k = 3 <;> simp [wasmerVerifyExportsGo, wasmerBciCount, h]
  | cons e rest ih =>
    intro k
    cases hstep : wasmerExportStep e with
    | ok w =>
      obtain ⟨hok, hwv⟩ := (wasmerExportStep_eq_ok e w).mp hstep
      subst hwv
      rw [wasmerVerifyExportsGo_cons_ok e rest k _ hstep, ih]
      simp only [List.mem_cons, wasmerBciCount, List.map_cons, List.sum_cons]
      constructor
      · rintro ⟨h1, h2⟩
        refine ⟨?_, by omega⟩
        intro x hx
        rcases hx with rfl | hx
        · exact hok
        · exact h1 x hx
      · rintro ⟨h1, h2⟩
        exact ⟨fun x hx => h1 x (Or.inr hx), by omega⟩
    | error err =>
      rw [wasmerVerifyExportsGo_cons_error e rest k err hstep]
      constructor
      · intro h
        exact absurd h (by simp)
      · rintro ⟨h1, _⟩
        have hok := h1 e (List.mem_cons_self e rest)
        have hstep2 := (wasmerExportStep_eq_ok e (wasmerBciWeight e)).mpr ⟨hok, rfl⟩
        rw [hstep] at hstep2
        exact absurd hstep2 (by simp)

theorem importStepChain_ok (b1 b2 b3 bk : Bool) (m1 m2 m3 : Str) :
    (if b1 then (.ok () : Except VError Unit)
     else if !b2 then .error (.validation m1)
     else if !b3 then .error (.validation m2)
     else if bk then .ok () else .error (.validation m3)) = .ok ()
    ↔ (b1 || (b2 && b3 && bk)) = true := by
  cases b1 <;> cases b2 <;> cases b3 <;> cases bk <;> simp

theorem wasmcImportStep_eq_ok (d : Bool) (i : ImportEntry) :
    wasmcImportStep d i = .ok () ↔ wasmcImportOk d i = true := by
  unfold wasmcImportStep wasmcImportOk
  exact importStepChain_ok (d && isPrefixOfChars nDebug i.moduleName)
    (isPrefixOfChars nBcos i.moduleName || isPrefixOfChars nEthereum i.moduleName)
    (beiFunctionsC.contains i.name || eeiFunctionsC.contains i.name)
    (i.kind == ExtKind.func) msgInvalidNamespace (msgImportInvalidEEI i.name) msgImportKind

theorem wasmcVerifyImports_cons_ok (d : Bool) (i : ImportEntry) (rest : List ImportEntry)
    (h : wasmcImportStep d i = .ok ()) :
    wasmcVerifyImports d (i :: rest) = wasmcVerifyImports d rest := by
  simp [wasmcVerifyImports, h]

theorem wasmcVerifyImports_cons_error (d : Bool) (i : ImportEntry) (rest : List ImportEntry)
    (err : VError) (h : wasmcImportStep d i = .error err) :
    wasmcVerifyImports d (i :: rest) = .error err := by
  simp [wasmcVerifyImports, h]

theorem wasmcVerifyImports_ok (d : Bool) (l : List ImportEntry) :
    wasmcVerifyImports d l = .ok () ↔ ∀ i ∈ l, wasmcImportOk d i = true := by
  induction l with
  | nil => simp [wasmcVerifyImports]
  | cons i rest ih =>
    cases hstep : wasmcImportStep d i with
    | ok u =>
      rw [wasmcVerifyImports_cons_ok d i rest (by cases u; exact hstep), ih]
      simp only [List.mem_cons]
      constructor
      · intro h1
        intro x hx
        rcases hx with rfl | hx
        · exact (wasmcImportStep_eq_ok d x).mp (by cases u; exact hstep)
        · exact h1 x hx
      · intro h1
        exact fun x hx => h1 x (Or.inr hx)
    | error err =>
      rw [wasmcVerifyImports_cons_error d i rest err hstep]
      constructor
      · intro h
        exact absurd h (by simp)
      · intro h1
        have hok := (wasmcImportStep_eq_ok d i).mpr (h1 i (List.mem_cons_self i rest))
        rw [hstep] at hok
        exact absurd hok (by simp)

/-- Round trip of a `uint32` value through a wasm `i32` slot. -/
theorem natOfI32_i32OfNat (n : Nat) (h : n < 4294967296) : natOfI32 (i32OfNat n) = n := by
  unfold natOfI32 i32OfNat
  rw [Nat.mod_eq_of_lt h]
  by_cases h2 : n < 2147483648
  · simp only [h2, if_true]
    omega
  · simp only [h2, if_false]
    omega

theorem natOfI32_zero : natOfI32 0 = 0 := rfl

/-! Claim theorems. -/

/-- C1 (counterexample): the claim orders the substring checks
"..., revert, finish, memory access", but wasmc.cpp lines 1636-1648 check
"memory access" BEFORE "finish".  On the trap message
"finish: memory access", which contains both substrings, the code throws
InvalidMemoryAccess whereas the claim's order yields a successful finish
(`isRevert = false`, no exception). -/
theorem C1_order_counterexample :
    classifyTrap ("finish: memory access".data) ⟨0, false, []⟩ =
      .error .invalidMemoryAccess
  ∧ classifyTrapClaimC1 ("finish: memory access".data) ⟨0, false, []⟩ =
      .ok ⟨0, false, []⟩
  ∧ classifyTrap ("finish: memory access".data) ⟨0, false, []⟩ ≠
      classifyTrapClaimC1 ("finish: memory access".data) ⟨0, false, []⟩ := by
  decide

/-- C1 (amended): the wasmc Executor classifies a terminal trap message by
case-sensitive substring containment in the order "Out of gas.",
"unreachable", "stack exhausted", "revert", "memory access", "finish" —
memory access before finish — first match wins; the first three throw
OutOfGas, Unreachable, Unreachable; "revert" gives `isRevert = true` with
no exception; "memory access" throws InvalidMemoryAccess; "finish" gives
`isRevert = false` with no exception; anything else throws the unknown
error.  The wasmer Executor (wasmer.cpp 698-721) recognises only
"Out of gas.", "unreachable" and "revert", and throws the unknown error on
every other message. -/
theorem C1_trap_classification (msg : Str) (res : ExecutionResult) :
    (containsSub msg strOutOfGas = true → classifyTrap msg res = .error .outOfGas)
  ∧ (containsSub msg strOutOfGas = false → containsSub msg strUnreachableMsg = true →
      classifyTrap msg res = .error .unreachableTrap)
  ∧ (containsSub msg strOutOfGas = false → containsSub msg strUnreachableMsg = false →
      containsSub msg strStackExhausted = true →
      classifyTrap msg res = .error .unreachableTrap)
  ∧ (containsSub msg strOutOfGas = false → containsSub msg strUnreachableMsg = false →
      containsSub msg strStackExhausted = false → containsSub msg strRevert = true →
      classifyTrap msg res = .ok { res with isRevert := true })
  ∧ (containsSub msg strOutOfGas = false → containsSub msg strUnreachableMsg = false →
      containsSub msg strStackExhausted = false → containsSub msg strRevert = false →
      containsSub msg strMemAccess = true →
      classifyTrap msg res = .error .invalidMemoryAccess)
  ∧ (containsSub msg strOutOfGas = false → containsSub msg strUnreachableMsg = false →
      containsSub msg strStackExhausted = false → containsSub msg strRevert = false →
      containsSub msg strMemAccess = false → containsSub msg strFinish = true →
      classifyTrap msg res = .ok { res with isRevert := false })
  ∧ (containsSub msg strOutOfGas = false → containsSub msg strUnreachableMsg = false →
      containsSub msg strStackExhausted = false → containsSub msg strRevert = false →
      containsSub msg strMemAccess = false → containsSub msg strFinish = false →
      classifyTrap msg res = .error .unknownError)
  ∧ (containsSub msg strOutOfGas = true → classifyTrapWr msg res = .error .outOfGas)
  ∧ (containsSub msg strOutOfGas = false → containsSub msg strUnreachableMsg = true →
      classifyTrapWr msg res = .error .unreachableTrap)
  ∧ (containsSub msg strOutOfGas = false → containsSub msg strUnreachableMsg = false →
      containsSub msg strRevert = true →
      classifyTrapWr msg res = .ok { res with isRevert := true })
  ∧ (containsSub msg strOutOfGas = false → containsSub msg strUnreachableMsg = false →
      containsSub msg strRevert = false →
      classifyTrapWr msg res = .error .unknownError) := by
  obtain ⟨g, ir, rv⟩ := res
  refine ⟨?_, ?_, ?_, ?_, ?_, ?_, ?_, ?_, ?_, ?_, ?_⟩ <;>
    (intros; simp_all [classifyTrap, classifyTrapWr])

/-- C1 (witness): evaluating the amended classification at two concrete
messages. -/
theorem C1_trap_classification_witness :
    classifyTrap strOutOfGas ⟨0, false, []⟩ = .error .outOfGas
  ∧ classifyTrap ("a memory access trap before finish".data) ⟨0, false, []⟩ =
      .error .invalidMemoryAccess := by
  refine ⟨(C1_trap_classification strOutOfGas ⟨0, false, []⟩).1 (by decide), ?_⟩
  exact (C1_trap_classification ("a memory access trap before finish".data)
    ⟨0, false, []⟩).2.2.2.2.1 (by decide) (by decide) (by decide) (by decide) (by decide)

/-- C2 (counterexample): the claim says `g` is first subtracted from
`gasLeft` and then the negative result traps; in the wasmer engine
(`takeGas`, wasmer.cpp 52-56) the trap precondition runs before the
subtraction, so with `gasLeft = 3` and `g = 5` the trap fires with
`gasLeft` left at 3, not at `3 - 5 = -2`. -/
theorem C2_counterexample :
    beiUseGasWr 3 5 = (3, some strOutOfGas) ∧ ¬((3 : Int) - 5 = 3) := by
  decide

/-- C2 (amended): `useGas(g)` with `g < 0` traps "Negative gas supplied."
leaving `gasLeft` unchanged, in both engines.  For `g ≥ 0` the wasmc
engine first subtracts and then traps exactly "Out of gas." when the
result is negative (leaving the negative value in `gasLeft`); the wasmer
engine traps exactly "Out of gas." when `g > gasLeft`, BEFORE subtracting,
leaving `gasLeft` unchanged.  The two engines trap under the same
condition. -/
theorem C2_useGas (gasLeft gas : Int) :
    (gas < 0 → beiUseGasW gasLeft gas = (gasLeft, some strNegGas) ∧
               beiUseGasWr gasLeft gas = (gasLeft, some strNegGas))
  ∧ (0 ≤ gas → beiUseGasW gasLeft gas =
      (gasLeft - gas, if gasLeft - gas < 0 then some strOutOfGas else none))
  ∧ (0 ≤ gas → beiUseGasWr gasLeft gas =
      (if gas ≤ gasLeft then gasLeft - gas else gasLeft,
       if gasLeft - gas < 0 then some strOutOfGas else none))
  ∧ (beiUseGasW gasLeft gas).2 = (beiUseGasWr gasLeft gas).2 := by
  refine ⟨?_, ?_, ?_, ?_⟩
  · intro h
    exact ⟨by simp [beiUseGasW, h], by simp [beiUseGasWr, h]⟩
  · intro h
    have h' : ¬gas < 0 := not_lt.mpr h
    by_cases hg : gasLeft - gas < 0 <;> simp [beiUseGasW, h', hg]
  · intro h
    have h' : ¬gas < 0 := not_lt.mpr h
    by_cases h2 : gas ≤ gasLeft
    · have hg : ¬gasLeft - gas < 0 := by omega
      simp [beiUseGasWr, h', h2, hg]
    · have hg : gasLeft - gas < 0 := by omega
      simp [beiUseGasWr, h', h2, hg]
  · by_cases h : gas < 0
    · simp [beiUseGasW, beiUseGasWr, h]
    · by_cases h2 : gas ≤ gasLeft
      · have hg : ¬gasLeft - gas < 0 := by omega
        simp [beiUseGasW, beiUseGasWr, h, h2, hg]
      · have hg : gasLeft - gas < 0 := by omega
        simp [beiUseGasW, beiUseGasWr, h, h2, hg]

/-- C2 (witness): negative gas at a concrete input. -/
theorem C2_useGas_witness :
    beiUseGasW 10 (-1) = (10, some strNegGas) ∧
    beiUseGasWr 10 (-1) = (10, some strNegGas) :=
  (C2_useGas 10 (-1)).1 (by decide)

/-- C3 (counterexample): the claim says a revert payload is not replaced
by the code bytes; `WasmerEngine::execute` (wasmer.cpp 689-692) sets
`returnValue = code` on CREATE unconditionally, clobbering the payload
[222, 173, 190, 239] with the code [0, 97, 115, 109]. -/
theorem C3_counterexample :
    (wasmerCreateFixup CallKind.create [0, 97, 115, 109]
        ⟨100, true, [222, 173, 190, 239]⟩).returnValue = [0, 97, 115, 109]
  ∧ [(0 : Nat), 97, 115, 109] ≠ [222, 173, 190, 239] := by
  decide

/-- C3 (amended): in the wasmc engine, on CREATE, if the run ends without
revert then `returnValue` is exactly the code bytes, and if it ends in
revert the result (including the revert payload) is left untouched; in
particular the full post-call pipeline maps a reverting deploy to its
payload.  The wasmer engine instead overwrites `returnValue` with the code
bytes on CREATE unconditionally. -/
theorem C3_create_returnValue (code : List Nat) (res : ExecutionResult) :
    (res.isRevert = false → (wasmcCreateFixup CallKind.create code res).returnValue = code)
  ∧ (res.isRevert = true → wasmcCreateFixup CallKind.create code res = res)
  ∧ (wasmerCreateFixup CallKind.create code res).returnValue = code
  ∧ (∀ (g : Int) (payload : List Nat),
      wasmcExecuteClaimedBody CallKind.create code true
        (GuestOutcome.trap strRevert ⟨g, true, payload⟩) = .ok ⟨g, true, payload⟩) := by
  refine ⟨?_, ?_, ?_, ?_⟩
  · intro h
    simp [wasmcCreateFixup, h]
  · intro h
    simp [wasmcCreateFixup, h]
  · simp [wasmerCreateFixup]
  · intro g payload
    rfl

/-- C3 (witness): the wasmc CREATE fixup at concrete inputs. -/
theorem C3_create_returnValue_witness :
    (wasmcCreateFixup CallKind.create [1, 2] ⟨5, false, []⟩).returnValue = [1, 2] :=
  (C3_create_returnValue [1, 2] ⟨5, false, []⟩).1 rfl

/-- C4: `finish`/`revert` copy `memory[offset..offset+size)` into
`returnValue`, set `isRevert` to the corresponding flag, and unwind with
the trap message "revert"/"finish"; with `size = 0` the (initially empty)
`returnValue` stays empty and `isRevert` is still set. -/
theorem C4_revertOrFinish (mem : List Nat) (rf : Bool) (offset size : Nat)
    (res : ExecutionResult) (hb : offset + size ≤ mem.length)
    (h0 : res.returnValue = []) :
    beiRevertOrFinishW mem rf offset size res =
      .ok ({ res with returnValue := (mem.drop offset).take size, isRevert := rf },
           if rf then strRevert else strFinish) := by
  by_cases hs : size = 0
  · subst hs
    obtain ⟨g, ir, rv⟩ := res
    simp at h0
    subst h0
    simp [beiRevertOrFinishW]
  · simp [beiRevertOrFinishW, hs, hb]

/-- C4 (witness): `revert(1, 3)` on a 5-byte memory yields `isRevert = true`
and the 3 bytes at offsets 1..3; also `finish(0, 0)` leaves `returnValue`
empty with `isRevert = false`. -/
theorem C4_revertOrFinish_witness :
    beiRevertOrFinishW [10, 11, 12, 13, 14] true 1 3 ⟨9, false, []⟩ =
      .ok (⟨9, true, [11, 12, 13]⟩, strRevert)
  ∧ beiRevertOrFinishW [10, 11, 12, 13, 14] false 0 0 ⟨9, true, []⟩ =
      .ok (⟨9, false, []⟩, strFinish) :=
  ⟨C4_revertOrFinish [10, 11, 12, 13, 14] true 1 3 ⟨9, false, []⟩ (by decide) rfl,
   C4_revertOrFinish [10, 11, 12, 13, 14] false 0 0 ⟨9, true, []⟩ (by decide) rfl⟩

/-- C5 (counterexample): export names are matched by `strncmp` prefix in
wasmc.cpp lines 1106-1130, so a module exporting "mainExtra" (not one of
the allowed names) — and NOT exporting "main" at all — passes validation,
where the claim requires a failure with "Invalid export is present.". -/
theorem C5_counterexample :
    wasmcVerifyExports [⟨nMemory, .mem⟩, ⟨nDeploy, .func⟩, ⟨nHashType, .func⟩,
        ⟨"mainExtra".data, .func⟩] = .ok ()
  ∧ "mainExtra".data ∉ [nMemory, nDeploy, nMain, nHashType, nDataEnd, nHeapBase] := by
  decide

/-- C5 (amended): wasmc verifyContract accepts a module's exports exactly
when every export name extends one of the prefixes memory (memory kind),
deploy/main/hash_type (function kind), __data_end/__heap_base (global
kind), and the number of exports with a memory/deploy/main/hash_type
prefix is exactly 4; wasmer verifyContract matches names exactly but
counts only deploy/main/hash_type occurrences (exactly 3 required) and
does not require a memory export. -/
theorem C5_export_validation (l : List ExportEntry) :
    (wasmcVerifyExports l = .ok () ↔
      ((∀ e ∈ l, wasmcExportOk e = true) ∧ wasmcBciCount l = 4))
  ∧ (wasmerVerifyExports l = .ok () ↔
      ((∀ e ∈ l, wasmerExportOk e = true) ∧ wasmerBciCount l = 3)) := by
  constructor
  · rw [wasmcVerifyExports, wasmcVerifyExportsGo_ok]
    simp
  · rw [wasmerVerifyExports, wasmerVerifyExportsGo_ok]
    simp

/-- C6 (counterexample): import namespaces are matched by `strncmp` prefix
in wasmc.cpp line 1174, so an import from the namespace "bcosx" — which is
none of ethereum/bcos/debug — is accepted, where the claim requires a
rejection. -/
theorem C6_counterexample :
    wasmcVerifyImports false [⟨"bcosx".data, "finish".data, .func⟩] = .ok ()
  ∧ "bcosx".data ≠ nBcos ∧ "bcosx".data ≠ nEthereum ∧ "bcosx".data ≠ nDebug := by
  decide

/-- C6 (amended): wasmc verifyContract accepts an import exactly when its
module name has bcos or ethereum as a prefix (or debug, skipped, in debug
builds), its name lies in the union of the engine's EEI and BEI sets, and
it is of function kind; a module importing ethereum::foo is rejected by
wasmc with "Importing invalid EEI method foo" and by wasmer with the fixed
message "Importing invalid EEI method." (name not appended). -/
theorem C6_import_validation (d : Bool) (l : List ImportEntry) :
    (wasmcVerifyImports d l = .ok () ↔ ∀ i ∈ l, wasmcImportOk d i = true)
  ∧ wasmcVerifyImports false [⟨nEthereum, "foo".data, .func⟩] =
      .error (.validation (msgImportInvalidEEI "foo".data))
  ∧ wasmerVerifyImports false [⟨nEthereum, "foo".data, .func⟩] =
      .error (.validation msgImportInvalidEEIWr) :=
  ⟨wasmcVerifyImports_ok d l, by decide, by decide⟩

/-- C7 (code bug): the single-byte read guard in `memoryGet` (wasmc.cpp
line 176, wasmer.cpp line 90) is `memorySize() >= offset`, which PASSES at
`offset == memorySize` and reads one byte past the end of the linear
memory, contradicting its own "Memory is shorter than requested segment"
message; only strictly larger offsets raise InvalidMemoryAccess.  The
(offset, length) guard of `memoryPointer` is correct. -/
theorem C7_memoryGet_bug :
    memoryGetW [7] 1 = .ok 0
  ∧ ([7] : List Nat).length = 1
  ∧ memoryGetW [7] 2 = .error .invalidMemoryAccess
  ∧ memoryPointerW [7] 1 1 = .error .invalidMemoryAccess := by
  decide

/-- C8: the `getStorage` trampoline passes the constant 19,264 as the
copy-out bound — its wasm signature has no caller-supplied value length at
all — so the copied length is `min(storedValueSize, 19264)`, never more
than 19,264, and exactly 19,264 whenever the stored value is at least that
big. -/
theorem C8_getStorage_cap (storedValueSize : Nat) :
    getStorageTrampolineLen storedValueSize = min storedValueSize 19264
  ∧ getStorageTrampolineLen storedValueSize ≤ 19264
  ∧ (19264 ≤ storedValueSize → getStorageTrampolineLen storedValueSize = 19264) := by
  refine ⟨rfl, min_le_right _ _, ?_⟩
  intro h
  simp [getStorageTrampolineLen, hostGetStorageCopyLen, maxStorageValueLength,
    Nat.min_eq_right h]

/-- C8 (witness): a caller with a 20,000-byte stored value receives exactly
19,264 bytes. -/
theorem C8_getStorage_cap_witness : getStorageTrampolineLen 20000 = 19264 :=
  (C8_getStorage_cap 20000).2.2 (by decide)

/-- C9: a claimed pooled instance has `idle = false`, and the
`InstanceHolder` destructor restores `idle = true` on every exit path of
the claimed portion of `execute` — normal return, traps classified as
revert/finish, and every thrown exception (the model applies the scope-exit
store on all of `wasmcExecuteClaimedBody`'s outcomes alike, as C++
guarantees for the automatic holder object). -/
theorem C9_instance_idle (pool : List WasmInstanceSt) (kind : CallKind) (code : List Nat)
    (hashTypeOk : Bool) (outcome : GuestOutcome) :
    (claimInstance pool).1.idle = false
  ∧ (wasmcExecuteClaimed (claimInstance pool).1 kind code hashTypeOk outcome).1.idle
      = true := by
  constructor
  · induction pool with
    | nil => rfl
    | cons i rest ih =>
      by_cases h : i.idle <;> simp [claimInstance, h, ih]
  · rfl

/-- C10: the one-shot BEI calls equal their EEI composites: `getCallData(r)`
behaves exactly as `callDataCopy(r, 0, getCallDataSize())` and
`getReturnData(d)` exactly as `returnDataCopy(d, 0, getReturnDataSize())`,
including the i32 marshalling of the size value through the guest (the
uint32 size survives the int32 round trip because it is below 2^32). -/
theorem C10_oneshot_equiv {α : Type} (cdc rdc : Nat → Nat → Nat → α)
    (callDataSize returnDataSize : Nat) (ro dofs : Int)
    (h1 : callDataSize < 4294967296) (h2 : returnDataSize < 4294967296) :
    beiGetCallDataW cdc callDataSize ro = getCallDataViaEEI cdc callDataSize ro
  ∧ beiGetReturnDataW rdc returnDataSize dofs =
      getReturnDataViaEEI rdc returnDataSize dofs := by
  constructor
  · unfold beiGetCallDataW getCallDataViaEEI callDataCopyW getCallDataSizeW
    rw [natOfI32_i32OfNat callDataSize h1, natOfI32_zero]
  · unfold beiGetReturnDataW getReturnDataViaEEI returnDataCopyW getReturnDataSizeW
    rw [natOfI32_i32OfNat returnDataSize h2, natOfI32_zero]

/-- C10 (witness): the equivalence evaluated at concrete sizes and offsets
with an interface that records its arguments. -/
theorem C10_oneshot_equiv_witness :
    beiGetCallDataW (fun a b c => (a, b, c)) 7 5 =
      getCallDataViaEEI (fun a b c => (a, b, c)) 7 5 :=
  (C10_oneshot_equiv (fun a b c => (a, b, c)) (fun a b c => (a, b, c)) 7 9 5 3
      (by decide) (by decide)).1

end Hera

